import Mathlib

/-!
Verification development for the live-transcription frontend (src/main.js).

The file shallowly embeds the parts of main.js that the documented
properties are about: the float32 → int16 sample conversion inside the
`onaudioprocess` callback, the transcript rendering rule
(`addTranscriptItem`), the inbound-message handler
(`handleWebSocketMessage`), and the connection lifecycle
(`connect` / `disconnect` / the WebSocket and microphone event handlers)
driving the mutable `state` object.

Audio samples are modelled as exact rationals (plus an explicit NaN
value): every concrete sample used in a statement below is exactly
representable as a float64 and all arithmetic on it is exact, so the
rational model agrees with the JavaScript semantics on those inputs.
Console logging and textContent mirroring of the counters are I/O only
and are not part of the model.
-/

namespace Frontend

/-- One JavaScript number used as an audio sample: NaN or an exact rational. -/
inductive JSample where
  | nan : JSample
  | val : ℚ → JSample
deriving DecidableEq

/-- Clamp of main.js:393, `Math.max(-1, Math.min(1, x))`, on a non-NaN value.
`Math.min`/`Math.max` propagate NaN, which the NaN case of `convertSample`
accounts for separately. -/
def clampQ (q : ℚ) : ℚ := max (-1) (min 1 q)

/-- Truncation toward zero: the integer part JavaScript keeps when a finite
number is stored into an `Int16Array` element (ToInt16 first truncates the
fractional part toward zero). -/
def truncQ (q : ℚ) : ℤ := if q < 0 then -⌊-q⌋ else ⌊q⌋

/-- Reduction into the signed 16-bit range: after truncation, ToInt16 takes the
value modulo 2^16 and reinterprets it as a signed 16-bit integer. -/
def wrap16 (t : ℤ) : ℤ :=
  if 32768 ≤ t % 65536 then t % 65536 - 65536 else t % 65536

/-- Sample conversion of main.js:393-394:
`const s = Math.max(-1, Math.min(1, x)); pcm16[i] = s < 0 ? s * 0x8000 : s * 0x7FFF;`
followed by the implicit ToInt16 conversion of the `Int16Array` store.
For NaN input: clamping propagates NaN, `NaN < 0` is false, `NaN * 0x7FFF` is
NaN, and storing NaN into an `Int16Array` yields 0. -/
def convertSample : JSample → ℤ
  | .nan => 0
  | .val x =>
      let s := clampQ x
      wrap16 (truncQ (if s < 0 then s * 32768 else s * 32767))

/-- Modelled from the spec (§4.1 Sample Converter), for comparison with
`convertSample`: clamp s to [-1, 1]; output round(s * 32767) if the clamped
s ≥ 0 and round(s * 32768) otherwise; NaN treated as 0. -/
def specRoundSample : JSample → ℤ
  | .nan => 0
  | .val x =>
      let s := clampQ x
      if 0 ≤ s then round (s * 32767) else round (s * 32768)

/-- The spec formula with rounding replaced by truncation toward zero (the
amended description of the converter); NaN treated as 0. -/
def specTruncSample : JSample → ℤ
  | .nan => 0
  | .val x =>
      let s := clampQ x
      if 0 ≤ s then truncQ (s * 32767) else truncQ (s * 32768)

/-- Readiness of a WebSocket (`WebSocket.readyState`).  `opened` stands for the
constant `WebSocket.OPEN` (the word `open` is reserved in Lean). -/
inductive ReadyState where
  | connecting : ReadyState
  | opened : ReadyState
  | closing : ReadyState
  | closed : ReadyState
deriving DecidableEq

/-- One WebSocket object.  `id` distinguishes distinct objects constructed by
`new WebSocket(...)` over the page's lifetime. -/
structure WSHandle where
  id : Nat
  ready : ReadyState
deriving DecidableEq

/-- One rendered transcript item (main.js:468-481).  The timestamp div is pure
display and is not modelled; the `transcript-item--interim` class corresponds to
`isFinal = false`. -/
structure Entry where
  text : String
  isFinal : Bool
deriving DecidableEq

/-- `state.stats` of main.js:17-20. -/
structure Stats where
  messages : Nat
  finals : Nat
deriving DecidableEq

/-- `state.config` of main.js:21-24. -/
structure Config where
  model : String
  language : String
deriving DecidableEq

/-- Argument of `updateMicrophoneStatus` (main.js:448): `true`, `false`, or the
string value used while requesting access. -/
inductive MicStatus where
  | active : MicStatus
  | inactive : MicStatus
  | requesting : MicStatus
deriving DecidableEq

/-- The mutable `state` object of main.js:11-25 together with the DOM pieces the
handlers read or write: the transcript container's item children, and the status
elements touched by `connect` / `disconnect` / the event handlers.  The
`messageCount` / `finalCount` text nodes always mirror `stats` and are not
duplicated here. -/
structure ClientState where
  ws : Option WSHandle
  isConnected : Bool
  audioContext : Bool
  mediaStream : Bool
  audioProcessor : Bool
  stats : Stats
  config : Config
  transcript : List Entry
  nextWsId : Nat
  uiStatusConnected : Bool
  uiStatusText : String
  uiMicStatus : MicStatus
  uiCurrentModel : String
  uiCurrentLanguage : String
  uiConfigEnabled : Bool
  uiOverlayVisible : Bool
  connectBtnEnabled : Bool
deriving DecidableEq

/-- Structured view of a parsed inbound JSON frame, holding exactly the fields
`handleWebSocketMessage` reads.  `channelTranscript` is
`data.channel?.alternatives?.[0]?.transcript` (none when any link is absent),
`topTranscript` is `data.transcript`, `hasChannel` is the truthiness of
`data.channel`, and absent booleans are `false`. -/
structure DGData where
  type : Option String
  hasChannel : Bool
  channelTranscript : Option String
  topTranscript : Option String
  is_final : Bool
  speech_final : Bool
  hasError : Bool
deriving DecidableEq

/-- An inbound WebSocket frame: either its payload fails `JSON.parse`, or it
parses to a `DGData` record. -/
inductive InMsg where
  | malformed : InMsg
  | parsed : DGData → InMsg
deriving DecidableEq

/-- JavaScript `a || b` on string-or-undefined values: an absent or empty
string is falsy and falls through to the fallback. -/
def orFalsy (o : Option String) (fallback : String) : String :=
  match o with
  | some s => if s = "" then fallback else s
  | none => fallback

/-- Transcript extraction of main.js:193:
`data.channel?.alternatives?.[0]?.transcript || data.transcript || ''`. -/
def extractTranscript (d : DGData) : String :=
  orFalsy d.channelTranscript (orFalsy d.topTranscript "")

/-- Rendering rule of main.js:462-493.  The new item replaces the container's
last element child exactly when the new item is interim and the last child is a
transcript item carrying the `transcript-item--interim` class; otherwise it is
appended.  The hidden empty-state placeholder is not part of the entry list, so
`lastItem !== elements.emptyState` corresponds to the list being non-empty. -/
def addTranscriptItem (ts : List Entry) (text : String) (isFinal : Bool) : List Entry :=
  match ts.getLast? with
  | some lastItem =>
      if !isFinal && !lastItem.isFinal then ts.dropLast ++ [⟨text, isFinal⟩]
      else ts ++ [⟨text, isFinal⟩]
  | none => ts ++ [⟨text, isFinal⟩]

/-- Inbound-message handler of main.js:183-212.  A payload that fails
`JSON.parse` throws before any statistic is touched and is caught at main.js:209
(console logging only), so the state is returned unchanged.  On a parsed frame
the message counter is incremented first; result frames with a non-empty
transcript are rendered, final ones also bump the finals counter; `Metadata`
and error frames are only logged. -/
def handleWebSocketMessage (s : ClientState) (m : InMsg) : ClientState :=
  match m with
  | .malformed => s
  | .parsed d =>
      let s1 := { s with stats := { s.stats with messages := s.stats.messages + 1 } }
      if d.type = some "Results" ∨ d.hasChannel = true then
        let transcript := extractTranscript d
        let isFinal := d.is_final || d.speech_final
        if transcript ≠ "" then
          let s2 := { s1 with transcript := addTranscriptItem s1.transcript transcript isFinal }
          if isFinal then { s2 with stats := { s2.stats with finals := s2.stats.finals + 1 } }
          else s2
        else s1
      else s1

/-- Close command issued on a WebSocket: target object id, close code, reason. -/
structure CloseCmd where
  wsId : Nat
  code : Nat
  reason : String
deriving DecidableEq

/-- `connect` of main.js:124-176.  The only guard is `if (state.isConnected)
return;` at main.js:125.  When it proceeds it reads the config inputs, disables
the connect button (spinner), and constructs a fresh `WebSocket`, overwriting
`state.ws`; the new socket starts in the `connecting` readyState and
`state.isConnected` stays false until the open event.  The `catch` arm of
main.js:171 is unreachable for the fixed well-formed URL and is not modelled.
The config inputs' current values are passed in as `model` / `lang`. -/
def connect (s : ClientState) (model lang : String) : ClientState :=
  if s.isConnected then s
  else
    { s with
      config := ⟨model, lang⟩
      connectBtnEnabled := false
      ws := some ⟨s.nextWsId, .connecting⟩
      nextWsId := s.nextWsId + 1 }

/-- `disconnect` of main.js:278-313, with the close command it issues (if any)
returned alongside the new state: `state.ws.close(1000, 'User disconnected')`
runs only when `state.ws` is non-null.  Track stop, processor disconnect and the
DOM updates are the remaining assignments; `state.audioContext` is never
cleared, and the transcript container's items are not removed. -/
def disconnect (s : ClientState) : ClientState × Option CloseCmd :=
  ({ s with
      ws := none
      audioProcessor := false
      mediaStream := false
      isConnected := false
      uiStatusConnected := false
      uiStatusText := "Disconnected"
      uiMicStatus := .inactive
      uiCurrentModel := "-"
      uiCurrentLanguage := "-"
      uiConfigEnabled := true
      uiOverlayVisible := true
      connectBtnEnabled := true },
   s.ws.map fun w => ⟨w.id, 1000, "User disconnected"⟩)

/-- Open event on the current socket: the browser moves `readyState` to OPEN
and fires `handleWebSocketOpen` → `onConnected` (main.js:178-257), which flips
`state.isConnected` early, updates the status line and config lock, and
initializes the audio context before awaiting the microphone grant. -/
def onWsOpen (s : ClientState) : ClientState :=
  match s.ws with
  | none => s
  | some w =>
      { s with
        ws := some { w with ready := .opened }
        isConnected := true
        uiStatusConnected := false
        uiStatusText := "Requesting microphone..."
        uiCurrentModel := s.config.model
        uiCurrentLanguage := s.config.language
        uiConfigEnabled := false
        audioContext := true
        uiMicStatus := .requesting }

/-- Resolution of the `getUserMedia` promise with a grant: the rest of
`startMicrophone` (main.js:374-420) builds the processing pipeline, then the
rest of `onConnected` (main.js:262-268) reveals the transcript UI. -/
def onMicGranted (s : ClientState) : ClientState :=
  { s with
    mediaStream := true
    audioProcessor := true
    uiMicStatus := .active
    uiOverlayVisible := false
    uiStatusConnected := true
    uiStatusText := "Connected" }

/-- Rejection of the `getUserMedia` promise: the `catch` of main.js:270-275
clears `state.isConnected`, alerts, and calls `disconnect()`. -/
def onMicDenied (s : ClientState) : ClientState :=
  (disconnect { s with isConnected := false }).1

/-- `handleWebSocketClose` (main.js:219-234): the socket is closed, the
connected flag drops, status and microphone displays reset.  `state.ws` is not
nulled here.  The 2-second deferred UI reset is real-time behaviour outside
this model. -/
def onWsClose (s : ClientState) : ClientState :=
  { s with
    ws := s.ws.map fun w => { w with ready := .closed }
    isConnected := false
    uiStatusConnected := false
    uiStatusText := "Disconnected"
    uiMicStatus := .inactive }

/-- `handleWebSocketError` (main.js:214-217): status display only. -/
def onWsError (s : ClientState) : ClientState :=
  { s with uiStatusConnected := false, uiStatusText := "Error" }

/-- The `onaudioprocess` callback of main.js:385-411, returning the binary
frames sent on the socket.  The callback is installed on the script-processor
node, so it cannot fire while no processor exists.  It returns immediately when
`state.isConnected` is false; otherwise it converts the float block to int16
and sends it only when `state.ws` is non-null with `readyState === OPEN` —
otherwise the frame is dropped on the floor, never stored. -/
def onaudioprocess (s : ClientState) (samples : List JSample) :
    ClientState × List (List ℤ) :=
  if !s.audioProcessor then (s, [])
  else if !s.isConnected then (s, [])
  else
    let pcm16 := samples.map convertSample
    match s.ws with
    | some w => if w.ready = .opened then (s, [pcm16]) else (s, [])
    | none => (s, [])

/-- External events driving the client: user clicks, socket events, microphone
permission resolution, inbound frames, and capture callbacks. -/
inductive Event where
  | userConnect : String → String → Event
  | wsOpen : Event
  | micGranted : Event
  | micDenied : Event
  | userDisconnect : Event
  | wsClose : Event
  | wsError : Event
  | inbound : InMsg → Event
  | audioFrame : List JSample → Event

/-- One event dispatch, with the audio frames it sends on the socket. -/
def step (s : ClientState) (e : Event) : ClientState × List (List ℤ) :=
  match e with
  | .userConnect model lang => (connect s model lang, [])
  | .wsOpen => (onWsOpen s, [])
  | .micGranted => (onMicGranted s, [])
  | .micDenied => (onMicDenied s, [])
  | .userDisconnect => ((disconnect s).1, [])
  | .wsClose => (onWsClose s, [])
  | .wsError => (onWsError s, [])
  | .inbound m => (handleWebSocketMessage s m, [])
  | .audioFrame samples => onaudioprocess s samples

/-- State reached after a sequence of events. -/
def runTrace (s : ClientState) : List Event → ClientState
  | [] => s
  | e :: es => runTrace (step s e).1 es

/-- Page-load state: the `state` literal of main.js:11-25 plus the static
markup's disconnected rendering (the markup itself lives outside main.js; no
theorem below depends on the initial values of the UI fields). -/
def initState : ClientState :=
  { ws := none
    isConnected := false
    audioContext := false
    mediaStream := false
    audioProcessor := false
    stats := ⟨0, 0⟩
    config := ⟨"nova-3", "en"⟩
    transcript := []
    nextWsId := 0
    uiStatusConnected := false
    uiStatusText := "Disconnected"
    uiMicStatus := .inactive
    uiCurrentModel := "-"
    uiCurrentLanguage := "-"
    uiConfigEnabled := true
    uiOverlayVisible := true
    connectBtnEnabled := true }

/-- The Idle configuration: the state every teardown lands in. -/
def idleState : ClientState := (disconnect initState).1

/-- Whether the client holds a socket in readyState OPEN. -/
def channelOpen (s : ClientState) : Bool :=
  match s.ws with
  | some w => w.ready = .opened
  | none => false

/-- The Streaming configuration: connected flag set, capture pipeline built,
socket open. -/
def Streaming (s : ClientState) : Prop :=
  s.isConnected = true ∧ s.audioProcessor = true ∧ channelOpen s = true

instance : DecidablePred Streaming := fun s => by
  unfold Streaming; infer_instance

/-- A convenient Results frame: `{type: "Results", channel: {alternatives:
[{transcript: t}]}, is_final: fin}`. -/
def resultsFrame (t : String) (fin : Bool) : DGData :=
  { type := some "Results"
    hasChannel := true
    channelTranscript := some t
    topTranscript := none
    is_final := fin
    speech_final := false
    hasError := false }

/-- The conversion applied to an already-clamped value: the branch and
truncation of main.js:394 plus the Int16Array store's truncation, before the
16-bit reduction. -/
def rawConvert (c : ℚ) : ℤ :=
  truncQ (if c < 0 then c * 32768 else c * 32767)

/-- No two adjacent transcript entries are both interim. -/
def NoAdjacentInterims (ts : List Entry) : Prop :=
  ts.Chain' fun a b => a.isFinal = true ∨ b.isFinal = true

instance : DecidablePred NoAdjacentInterims := fun ts => by
  unfold NoAdjacentInterims; infer_instance

/-- The two-frame scenario of the spec: interim "hello", then final
"hello world". -/
def helloTrace : List Event :=
  [.inbound (.parsed (resultsFrame "hello" false)),
   .inbound (.parsed (resultsFrame "hello world" true))]

/-- A session followed by a reconnect: connect, open, mic grant, one final
result frame, user disconnect, connect again, open, mic grant. -/
def reconnectTrace : List Event :=
  [.userConnect "nova-3" "en", .wsOpen, .micGranted,
   .inbound (.parsed (resultsFrame "hi" true)),
   .userDisconnect,
   .userConnect "nova-3" "en", .wsOpen, .micGranted]

/-- State of an established session: connected, pipeline built, socket open. -/
def streamingState : ClientState :=
  runTrace initState [.userConnect "nova-3" "en", .wsOpen, .micGranted]

/-- A parsed Results frame whose alternatives carry an empty transcript and
`is_final: true`. -/
def emptyFinalFrame : DGData := resultsFrame "" true

/-- A parsed `{type: "Metadata", ...}` frame. -/
def metadataFrame : DGData :=
  { type := some "Metadata"
    hasChannel := false
    channelTranscript := none
    topTranscript := none
    is_final := false
    speech_final := false
    hasError := false }

/-! ## Lemmas about the sample conversion -/

lemma wrap16_id {t : ℤ} (h1 : -32768 ≤ t) (h2 : t ≤ 32767) : wrap16 t = t := by
  unfold wrap16
  split <;> omega

lemma truncQ_mono {a b : ℚ} (h : a ≤ b) : truncQ a ≤ truncQ b := by
  unfold truncQ
  by_cases ha : a < 0 <;> by_cases hb : b < 0 <;> simp only [ha, hb, if_pos, if_neg, if_true, if_false]
  · have := Int.floor_mono (neg_le_neg h)
    omega
  · have h1 : (0 : ℤ) ≤ ⌊-a⌋ := Int.floor_nonneg.mpr (by linarith)
    have h2 : (0 : ℤ) ≤ ⌊b⌋ := Int.floor_nonneg.mpr (by linarith)
    omega
  · exact absurd (lt_of_le_of_lt h hb) ha
  · exact Int.floor_mono h

lemma truncQ_nonneg {a : ℚ} (h : 0 ≤ a) : 0 ≤ truncQ a := by
  unfold truncQ
  rw [if_neg (not_lt.mpr h)]
  exact Int.floor_nonneg.mpr h

lemma truncQ_le {a : ℚ} {k : ℤ} (h0 : 0 ≤ a) (h : a ≤ (k : ℚ)) : truncQ a ≤ k := by
  unfold truncQ
  rw [if_neg (not_lt.mpr h0)]
  have := Int.floor_mono h
  rwa [Int.floor_intCast] at this

lemma truncQ_nonpos {a : ℚ} (h : a < 0) : truncQ a ≤ 0 := by
  unfold truncQ
  rw [if_pos h]
  have : (0 : ℤ) ≤ ⌊-a⌋ := Int.floor_nonneg.mpr (by linarith)
  omega

lemma le_truncQ {a : ℚ} {k : ℤ} (hneg : a < 0) (h : (k : ℚ) ≤ a) : k ≤ truncQ a := by
  unfold truncQ
  rw [if_pos hneg]
  have : ⌊-a⌋ ≤ -k := by
    have := Int.floor_mono (neg_le_neg h)
    simpa using this
  omega

lemma clampQ_mem (q : ℚ) : -1 ≤ clampQ q ∧ clampQ q ≤ 1 := by
  unfold clampQ
  exact ⟨le_max_left _ _, max_le (by norm_num) (min_le_left _ _)⟩

lemma clampQ_eq {q : ℚ} (h1 : -1 ≤ q) (h2 : q ≤ 1) : clampQ q = q := by
  unfold clampQ
  rw [min_eq_right h2, max_eq_right h1]

lemma convertSample_val (q : ℚ) :
    convertSample (.val q) = wrap16 (rawConvert (clampQ q)) := rfl

lemma rawConvert_range {c : ℚ} (h1 : -1 ≤ c) (h2 : c ≤ 1) :
    -32768 ≤ rawConvert c ∧ rawConvert c ≤ 32767 := by
  unfold rawConvert
  by_cases hc : c < 0
  · rw [if_pos hc]
    have hneg : c * 32768 < 0 := mul_neg_of_neg_of_pos hc (by norm_num)
    constructor
    · exact le_truncQ hneg (by push_cast; nlinarith)
    · exact (truncQ_nonpos hneg).trans (by norm_num)
  · rw [if_neg hc]
    push_neg at hc
    have hnn : 0 ≤ c * 32767 := mul_nonneg hc (by norm_num)
    constructor
    · exact le_trans (by norm_num) (truncQ_nonneg hnn)
    · exact truncQ_le hnn (by push_cast; nlinarith)

lemma rawConvert_mono {c1 c2 : ℚ} (h : c1 ≤ c2) : rawConvert c1 ≤ rawConvert c2 := by
  unfold rawConvert
  by_cases h1 : c1 < 0 <;> by_cases h2 : c2 < 0 <;>
    simp only [h1, h2, if_pos, if_neg, if_true, if_false]
  · exact truncQ_mono (by nlinarith)
  · push_neg at h2
    have ha : c1 * 32768 < 0 := mul_neg_of_neg_of_pos h1 (by norm_num)
    have hb : 0 ≤ c2 * 32767 := mul_nonneg h2 (by norm_num)
    exact (truncQ_nonpos ha).trans (truncQ_nonneg hb)
  · exact absurd (lt_of_le_of_lt h h2) h1
  · exact truncQ_mono (by nlinarith)

/-! ## Lemmas about the transcript rendering -/

lemma noAdj_addTranscriptItem {ts : List Entry} (t : String) (fin : Bool)
    (h : NoAdjacentInterims ts) :
    NoAdjacentInterims (addTranscriptItem ts t fin) := by
  unfold NoAdjacentInterims at h ⊢
  rcases List.eq_nil_or_concat ts with rfl | ⟨xs, l, rfl⟩
  · simp [addTranscriptItem]
  · simp only [List.concat_eq_append] at h ⊢
    have hg : (xs ++ [l]).getLast? = some l := List.getLast?_concat _
    simp only [addTranscriptItem, hg]
    by_cases hfin : (!fin && !l.isFinal) = true
    · rw [if_pos hfin, List.dropLast_concat]
      simp only [Bool.and_eq_true, Bool.not_eq_true'] at hfin
      obtain ⟨h1, -, h3⟩ := List.chain'_append.mp h
      refine List.chain'_append.mpr ⟨h1, List.chain'_singleton _, ?_⟩
      intro x hx y hy
      simp only [List.head?_cons, Option.mem_def, Option.some.injEq] at hy
      subst hy
      have := h3 x hx l (by simp)
      rcases this with hfl | hfl
      · exact Or.inl hfl
      · exact absurd hfl (by simp [hfin.2])
    · rw [if_neg hfin]
      refine List.chain'_append.mpr ⟨h, List.chain'_singleton _, ?_⟩
      intro x hx y hy
      simp only [hg, Option.mem_def, Option.some.injEq] at hx
      simp only [List.head?_cons, Option.mem_def, Option.some.injEq] at hy
      subst hx; subst hy
      simp only [Bool.and_eq_true, Bool.not_eq_true'] at hfin
      by_cases hf : fin = true
      · exact Or.inr hf
      · exact Or.inl (by
          rcases Bool.eq_false_or_eq_true l.isFinal with hl | hl
          · exact hl
          · exact absurd ⟨by simpa using hf, hl⟩ hfin)

lemma noAdj_handleWebSocketMessage {s : ClientState} (m : InMsg)
    (h : NoAdjacentInterims s.transcript) :
    NoAdjacentInterims (handleWebSocketMessage s m).transcript := by
  cases m with
  | malformed => exact h
  | parsed d =>
      simp only [handleWebSocketMessage]
      split
      · split
        · split <;> exact noAdj_addTranscriptItem _ _ h
        · exact h
      · exact h

lemma noAdj_step {s : ClientState} (e : Event)
    (h : NoAdjacentInterims s.transcript) :
    NoAdjacentInterims ((step s e).1.transcript) := by
  cases e with
  | userConnect model lang =>
      simp only [step, connect]
      split <;> exact h
  | wsOpen =>
      simp only [step, onWsOpen]
      cases s.ws <;> exact h
  | micGranted => exact h
  | micDenied => exact h
  | userDisconnect => exact h
  | wsClose => exact h
  | wsError => exact h
  | inbound m => exact noAdj_handleWebSocketMessage m h
  | audioFrame samples =>
      simp only [step, onaudioprocess]
      split
      · exact h
      · split
        · exact h
        · cases hw : s.ws with
          | none => simpa [hw] using h
          | some w =>
              simp only [hw]
              split <;> exact h

lemma noAdj_runTrace :
    ∀ (evs : List Event) (s : ClientState), NoAdjacentInterims s.transcript →
      NoAdjacentInterims (runTrace s evs).transcript := by
  intro evs
  induction evs with
  | nil => intro s h; exact h
  | cons e es ih => intro s h; exact ih _ (noAdj_step e h)

lemma onaudioprocess_eq_of_not_streaming {s : ClientState} (samples : List JSample)
    (h : ¬ Streaming s) : onaudioprocess s samples = (s, []) := by
  unfold onaudioprocess
  cases hp : s.audioProcessor with
  | false => simp [hp]
  | true =>
      cases hc : s.isConnected with
      | false => simp [hp, hc]
      | true =>
          cases hw : s.ws with
          | none => simp [hp, hc, hw]
          | some w =>
              have hr : w.ready ≠ .opened := by
                intro hx
                exact h ⟨hc, hp, by simp [channelOpen, hw, hx]⟩
              simp [hp, hc, hw, hr]

/-! ## The claims -/

/-- C1, counterexample: rendering the interim frame "hello" and then the final
frame "hello world" does not leave a single final entry — the superseded
interim entry "hello" is retained ahead of the appended final entry, refuting
"an interim transcript entry is never retained once superseded". -/
theorem c1_counterexample :
    (runTrace initState helloTrace).transcript ≠ [⟨"hello world", true⟩]
    ∧ (∃ e ∈ (runTrace initState helloTrace).transcript, e.isFinal = false) := by
  decide

/-- C1, amended: an interim entry is replaced in place only by the next interim
frame while it sits at the tail; a final frame is always appended and retains
any preceding interim entry.  Consequently no two adjacent entries are both
interim, and after interim "hello" followed by final "hello world" the
transcript holds the interim entry "hello" and then the final entry
"hello world", with the final-results counter equal to 1. -/
theorem c1_amended :
    (∀ evs : List Event, NoAdjacentInterims (runTrace initState evs).transcript)
    ∧ (runTrace initState helloTrace).transcript
        = [⟨"hello", false⟩, ⟨"hello world", true⟩]
    ∧ (runTrace initState helloTrace).stats.finals = 1 :=
  ⟨fun evs => noAdj_runTrace evs initState (by decide), by decide, by decide⟩

/-- C2: a final frame is always appended as a new terminal entry, never
replacing anything; an interim frame replaces the previous entry exactly when
that entry was itself interim, and is appended otherwise (also when the
transcript is empty). -/
theorem c2_replace_iff_interim (ts : List Entry) (t : String) :
    addTranscriptItem ts t true = ts ++ [⟨t, true⟩]
    ∧ (∀ l, ts.getLast? = some l → l.isFinal = false →
        addTranscriptItem ts t false = ts.dropLast ++ [⟨t, false⟩])
    ∧ (∀ l, ts.getLast? = some l → l.isFinal = true →
        addTranscriptItem ts t false = ts ++ [⟨t, false⟩])
    ∧ (ts.getLast? = none → addTranscriptItem ts t false = ts ++ [⟨t, false⟩]) := by
  refine ⟨?_, ?_, ?_, ?_⟩
  · cases hg : ts.getLast? with
    | none => simp [addTranscriptItem, hg]
    | some l => simp [addTranscriptItem, hg]
  · intro l hg hl
    simp [addTranscriptItem, hg, hl]
  · intro l hg hl
    simp [addTranscriptItem, hg, hl]
  · intro hg
    simp [addTranscriptItem, hg]

/-- C2, witness: with previous entry interim "a", a final "b" is appended and
an interim "b" replaces it. -/
theorem c2_witness :
    addTranscriptItem [⟨"a", false⟩] "b" true = [⟨"a", false⟩, ⟨"b", true⟩]
    ∧ addTranscriptItem [⟨"a", false⟩] "b" false = [⟨"b", false⟩] := by
  have h := c2_replace_iff_interim [⟨"a", false⟩] "b"
  exact ⟨by simpa using h.1, by simpa using h.2.1 ⟨"a", false⟩ rfl rfl⟩

/-- C3, counterexample: after a session that received one final result frame,
disconnecting and establishing a new connection leaves both session counters at
1, not 0: the code never resets `state.stats`. -/
theorem c3_counterexample :
    (runTrace initState reconnectTrace).isConnected = true
    ∧ (runTrace initState reconnectTrace).stats.messages = 1
    ∧ (runTrace initState reconnectTrace).stats.finals = 1
    ∧ (runTrace initState reconnectTrace).stats.messages ≠ 0 := by
  decide

/-- C3, amended: the session counters are monotonically non-decreasing over the
events of a session, are zero at page load, and are never reset: `connect`
leaves both counters unchanged, so a new connection continues from the previous
totals. -/
theorem c3_amended :
    (∀ (s : ClientState) (e : Event),
        s.stats.messages ≤ (step s e).1.stats.messages
        ∧ s.stats.finals ≤ (step s e).1.stats.finals)
    ∧ (∀ (s : ClientState) (model lang : String), (connect s model lang).stats = s.stats)
    ∧ initState.stats = ⟨0, 0⟩ := by
  refine ⟨?_, ?_, rfl⟩
  · intro s e
    cases e with
    | userConnect model lang =>
        simp only [step, connect]
        split <;> exact ⟨le_refl _, le_refl _⟩
    | wsOpen =>
        simp only [step, onWsOpen]
        cases s.ws <;> exact ⟨le_refl _, le_refl _⟩
    | micGranted => exact ⟨le_refl _, le_refl _⟩
    | micDenied => exact ⟨le_refl _, le_refl _⟩
    | userDisconnect => exact ⟨le_refl _, le_refl _⟩
    | wsClose => exact ⟨le_refl _, le_refl _⟩
    | wsError => exact ⟨le_refl _, le_refl _⟩
    | audioFrame samples =>
        simp only [step, onaudioprocess]
        split
        · exact ⟨le_refl _, le_refl _⟩
        · split
          · exact ⟨le_refl _, le_refl _⟩
          · cases s.ws with
            | none => exact ⟨le_refl _, le_refl _⟩
            | some w =>
                dsimp only
                split <;> exact ⟨le_refl _, le_refl _⟩
    | inbound m =>
        cases m with
        | malformed => exact ⟨le_refl _, le_refl _⟩
        | parsed d =>
            simp only [step, handleWebSocketMessage]
            split
            · split
              · split <;> refine ⟨?_, ?_⟩ <;> simp
              · refine ⟨?_, ?_⟩ <;> simp
            · refine ⟨?_, ?_⟩ <;> simp
  · intro s model lang
    simp only [connect]
    split <;> rfl

/-- C4, counterexample: `connect()` called while channel negotiation is still
pending (socket constructed, open event not yet fired, `state.isConnected`
still false) is not a no-op: it constructs a second WebSocket object,
overwriting the first handle without closing it. -/
theorem c4_counterexample :
    (runTrace initState [.userConnect "nova-3" "en"]).isConnected = false
    ∧ (runTrace initState [.userConnect "nova-3" "en"]).ws = some ⟨0, .connecting⟩
    ∧ connect (runTrace initState [.userConnect "nova-3" "en"]) "nova-3" "en"
        ≠ runTrace initState [.userConnect "nova-3" "en"]
    ∧ (connect (runTrace initState [.userConnect "nova-3" "en"]) "nova-3" "en").nextWsId = 2 := by
  decide

/-- C4, amended: the only guard on `connect()` is the connected flag, which is
set at channel open and cleared at teardown: with the flag set the call is a
strict no-op, but with the flag still clear (in particular while channel
negotiation is pending) the call proceeds and constructs a fresh channel
handle, so uniqueness of the handle rests on the UI disabling the connect
button, not on this guard. -/
theorem c4_amended :
    (∀ (s : ClientState) (model lang : String),
        s.isConnected = true → connect s model lang = s)
    ∧ (∀ (s : ClientState) (model lang : String),
        s.isConnected = false →
          (connect s model lang).ws = some ⟨s.nextWsId, .connecting⟩
          ∧ (connect s model lang).nextWsId = s.nextWsId + 1) := by
  constructor
  · intro s model lang h
    simp [connect, h]
  · intro s model lang h
    simp [connect, h]

/-- C4, witness: from the streaming state a connect call is a no-op; from the
page-load state it constructs socket number 0 and bumps the constructor counter. -/
theorem c4_witness :
    connect streamingState "nova-3" "en" = streamingState
    ∧ (connect initState "nova-3" "en").ws = some ⟨0, .connecting⟩
    ∧ (connect initState "nova-3" "en").nextWsId = 1 := by
  refine ⟨c4_amended.1 streamingState "nova-3" "en" (by decide), ?_, ?_⟩
  · exact (c4_amended.2 initState "nova-3" "en" rfl).1
  · exact (c4_amended.2 initState "nova-3" "en" rfl).2

/-- C5, counterexample: the code truncates toward zero (Int16Array store) and
does not round: at s = 1/2 it yields 16383 while the claimed
round(s * 32767) yields 16384. -/
theorem c5_counterexample :
    convertSample (.val (1/2)) = 16383
    ∧ specRoundSample (.val (1/2)) = 16384
    ∧ convertSample (.val (1/2)) ≠ specRoundSample (.val (1/2)) := by
  have h1 : convertSample (.val (1/2)) = 16383 := by
    norm_num [convertSample, clampQ, truncQ, wrap16, min_def, max_def]
  have h2 : specRoundSample (.val (1/2)) = 16384 := by
    norm_num [specRoundSample, clampQ, round_eq, min_def, max_def]
  exact ⟨h1, h2, by rw [h1, h2]; decide⟩

/-- C5, amended: the Sample Converter first clamps s to [-1, 1] and then
outputs truncate-toward-zero(s * 32767) if the clamped s ≥ 0 and
truncate-toward-zero(s * 32768) otherwise; NaN is treated as 0, and for s
outside [-1, 1] the output equals the output for the clamped value. -/
theorem c5_amended :
    convertSample .nan = 0
    ∧ (∀ q : ℚ, convertSample (.val q) = specTruncSample (.val q))
    ∧ (∀ q : ℚ, convertSample (.val q) = convertSample (.val (clampQ q))) := by
  refine ⟨rfl, ?_, ?_⟩
  · intro q
    have hb := clampQ_mem q
    have hr := rawConvert_range hb.1 hb.2
    rw [convertSample_val, wrap16_id hr.1 hr.2]
    show rawConvert (clampQ q) = specTruncSample (.val q)
    unfold rawConvert specTruncSample
    dsimp only
    by_cases h : clampQ q < 0
    · rw [if_pos h, if_neg (not_le.mpr h)]
    · rw [if_neg h, if_pos (not_lt.mp h)]
  · intro q
    have hb := clampQ_mem q
    rw [convertSample_val, convertSample_val, clampQ_eq hb.1 hb.2]

/-- C6: for all samples s in [-1, 1] the converter output lies in
[-32768, 32767], and the converter is monotone on [-1, 1]. -/
theorem c6_range_monotone :
    (∀ q : ℚ, -1 ≤ q → q ≤ 1 →
        -32768 ≤ convertSample (.val q) ∧ convertSample (.val q) ≤ 32767)
    ∧ (∀ q1 q2 : ℚ, -1 ≤ q1 → q1 ≤ q2 → q2 ≤ 1 →
        convertSample (.val q1) ≤ convertSample (.val q2)) := by
  constructor
  · intro q h1 h2
    rw [convertSample_val, clampQ_eq h1 h2]
    have hr := rawConvert_range h1 h2
    rw [wrap16_id hr.1 hr.2]
    exact hr
  · intro q1 q2 h1 h12 h2
    rw [convertSample_val, convertSample_val,
        clampQ_eq h1 (h12.trans h2), clampQ_eq (h1.trans h12) h2]
    have hr1 := rawConvert_range h1 (h12.trans h2)
    have hr2 := rawConvert_range (h1.trans h12) h2
    rw [wrap16_id hr1.1 hr1.2, wrap16_id hr2.1 hr2.2]
    exact rawConvert_mono h12

/-- C6, witness: at s = -1/2 the output is in range, and the converter is
monotone between -1/2 and 3/4. -/
theorem c6_witness :
    (-32768 ≤ convertSample (.val (-1/2)) ∧ convertSample (.val (-1/2)) ≤ 32767)
    ∧ convertSample (.val (-1/2)) ≤ convertSample (.val (3/4)) :=
  ⟨c6_range_monotone.1 (-1/2) (by norm_num) (by norm_num),
   c6_range_monotone.2 (-1/2) (3/4) (by norm_num) (by norm_num) (by norm_num)⟩

/-- C7: a binary frame is sent only from a state with the connected flag set,
the capture pipeline built and the socket open (Streaming); a frame captured
while the channel is not open leaves the state unchanged and is dropped, never
stored; and no post-disconnect state is Streaming. -/
theorem c7_sends_only_streaming :
    (∀ (s : ClientState) (e : Event), (step s e).2 ≠ [] → Streaming s)
    ∧ (∀ (s : ClientState) (samples : List JSample),
        channelOpen s = false → onaudioprocess s samples = (s, []))
    ∧ (∀ s : ClientState, ¬ Streaming (disconnect s).1) := by
  refine ⟨?_, ?_, ?_⟩
  · intro s e h
    cases e with
    | userConnect model lang => exact absurd rfl h
    | wsOpen => exact absurd rfl h
    | micGranted => exact absurd rfl h
    | micDenied => exact absurd rfl h
    | userDisconnect => exact absurd rfl h
    | wsClose => exact absurd rfl h
    | wsError => exact absurd rfl h
    | inbound m => exact absurd rfl h
    | audioFrame samples =>
        by_cases hs : Streaming s
        · exact hs
        · rw [show step s (.audioFrame samples) = onaudioprocess s samples from rfl,
              onaudioprocess_eq_of_not_streaming samples hs] at h
          exact absurd rfl h
  · intro s samples h
    refine onaudioprocess_eq_of_not_streaming samples ?_
    intro hs
    rw [hs.2.2] at h
    exact Bool.noConfusion h
  · intro s hs
    obtain ⟨h1, -, -⟩ := hs
    simp [disconnect] at h1

/-- C7, witness: the established-session state is Streaming and an audio frame
sent there produces a send; a frame in the Idle state is dropped with no state
change; the post-disconnect state is not Streaming. -/
theorem c7_witness :
    Streaming streamingState
    ∧ onaudioprocess idleState [JSample.val 0] = (idleState, [])
    ∧ ¬ Streaming (disconnect streamingState).1 := by
  refine ⟨?_, ?_, ?_⟩
  · refine c7_sends_only_streaming.1 streamingState (.audioFrame [.val 0]) ?_
    have hp : streamingState.audioProcessor = true := by decide
    have hc : streamingState.isConnected = true := by decide
    have hw : streamingState.ws = some ⟨0, .opened⟩ := by decide
    simp [step, onaudioprocess, hp, hc, hw]
  · exact c7_sends_only_streaming.2.1 idleState [JSample.val 0] (by decide)
  · exact c7_sends_only_streaming.2.2 streamingState

/-- C8: an inbound frame whose payload is not valid JSON is discarded without
any state change: the handler returns the state unchanged, in particular the
message counter, the finals counter and the transcript sequence.  (The throw
from JSON.parse is caught at main.js:209; console logging is the only effect.) -/
theorem c8_malformed_no_change (s : ClientState) :
    handleWebSocketMessage s .malformed = s
    ∧ (handleWebSocketMessage s .malformed).stats.messages = s.stats.messages
    ∧ (handleWebSocketMessage s .malformed).stats.finals = s.stats.finals
    ∧ (handleWebSocketMessage s .malformed).transcript = s.transcript :=
  ⟨rfl, rfl, rfl, rfl⟩

/-- C9: `disconnect()` is idempotent from any state — a second call returns the
same state and issues no close command — and calling it in the Idle
configuration (no channel handle, no input handle, no processor) changes
nothing and issues no close command.  The modelled `disconnect` is a total
function: no exception path exists. -/
theorem c9_disconnect_idempotent :
    (∀ s : ClientState, disconnect (disconnect s).1 = ((disconnect s).1, none))
    ∧ disconnect idleState = (idleState, none)
    ∧ idleState.ws = none
    ∧ idleState.audioProcessor = false
    ∧ idleState.mediaStream = false := by
  refine ⟨?_, rfl, rfl, rfl, rfl⟩
  intro s
  rfl

/-- C10: the message counter counts every parseable inbound frame, regardless
of its type (Metadata and error frames included); a parsed result frame whose
extracted transcript is empty renders no transcript entry and leaves the
finals counter unchanged even when is_final is true. -/
theorem c10_empty_transcript :
    (∀ (s : ClientState) (d : DGData),
        (handleWebSocketMessage s (.parsed d)).stats.messages = s.stats.messages + 1)
    ∧ (∀ (s : ClientState) (d : DGData), extractTranscript d = "" →
        (handleWebSocketMessage s (.parsed d)).transcript = s.transcript
        ∧ (handleWebSocketMessage s (.parsed d)).stats.finals = s.stats.finals) := by
  constructor
  · intro s d
    simp only [handleWebSocketMessage]
    split
    · split
      · split <;> simp
      · simp
    · simp
  · intro s d h
    simp only [handleWebSocketMessage]
    split
    · rw [if_neg (by simp [h])]
      exact ⟨rfl, rfl⟩
    · exact ⟨rfl, rfl⟩

/-- C10, witness: a Results frame with empty transcript and is_final true
renders nothing and leaves the finals counter at 0, while a Metadata frame
still increments the message counter. -/
theorem c10_witness :
    extractTranscript emptyFinalFrame = ""
    ∧ emptyFinalFrame.is_final = true
    ∧ (handleWebSocketMessage initState (.parsed emptyFinalFrame)).transcript
        = initState.transcript
    ∧ (handleWebSocketMessage initState (.parsed emptyFinalFrame)).stats.finals
        = initState.stats.finals
    ∧ (handleWebSocketMessage initState (.parsed metadataFrame)).stats.messages
        = initState.stats.messages + 1 := by
  refine ⟨by decide, rfl, ?_, ?_, ?_⟩
  · exact (c10_empty_transcript.2 initState emptyFinalFrame (by decide)).1
  · exact (c10_empty_transcript.2 initState emptyFinalFrame (by decide)).2
  · exact c10_empty_transcript.1 initState metadataFrame

end Frontend
